import Mathlib

/-!
# Verification of the Famedly/synapse excerpt

Shallow embedding of the two source files of the excerpt:

* `synapse/util/threepids.py`: `check_3pid_allowed` and `canonicalise_email`
  (embedded directly from the source).
* `tests/handlers/test_saml.py`: the SAML SSO identity-mapping workflow the
  tests exercise.  The handler implementation itself
  (`synapse/handlers/saml.py` / `synapse/handlers/sso.py`) is not part of the
  excerpt, so the workflow is modelled from the specification (sections 4.1 to
  4.4, 7 and 8 of the design document) together with the concrete behaviour
  pinned down by the tests; those definitions carry a
  `Modelled from the spec:` marker.

Python strings are modelled as lists of Unicode code points (`List Nat`) where
character-level operations matter (`canonicalise_email`), and as opaque `String`
values elsewhere.  Asynchronous collaborator calls (HTTP client, datastore,
login-completion, error rendering) are modelled as explicit function arguments
and as fields of the returned outcome.
-/

namespace Synapse

/-! ## Part 1: `synapse/util/threepids.py`

`canonicalise_email` works on the code points of the address, so a Python
string is a `List Nat` of code points here. -/

/-- A Python string, as its sequence of Unicode code points. -/
abbrev PyStr := List Nat

/-- The code point of the `@` character. -/
def atSign : Nat := 64

/-- The whitespace test used by Python `str.strip()` with no argument,
restricted to the ASCII whitespace code points (space, tab, LF, CR, VT, FF).
The extra Unicode space code points stripped by Python behave identically for
every property proved below. -/
def pyIsSpace (c : Nat) : Bool :=
  decide (c = 32 ∨ c = 9 ∨ c = 10 ∨ c = 13 ∨ c = 11 ∨ c = 12)

/-- Character-level model of Python `str.lower` (and of `str.casefold`, which
agrees with it on the code points relevant here): uppercase ASCII letters are
shifted to lowercase, every other code point is unchanged.  The full Unicode
tables are approximated by their ASCII fragment; the claims proved below do not
depend on the exact table, only on the facts that lowering is idempotent, never
produces `@`, and never produces whitespace. -/
def pyLowerChar (c : Nat) : Nat :=
  if 65 ≤ c ∧ c ≤ 90 then c + 32 else c

/-- Model of Python `str.lower` on a whole string. -/
def pyLower (s : PyStr) : PyStr := s.map pyLowerChar

/-- Model of Python `str.casefold` on a whole string (see `pyLowerChar`). -/
def pyCasefold (s : PyStr) : PyStr := s.map pyLowerChar

/-- Model of Python `str.strip()`: drop whitespace from the left, then from
the right. -/
def pyStrip (s : PyStr) : PyStr :=
  List.rdropWhile pyIsSpace (List.dropWhile pyIsSpace s)

/-- Model of Python `str.split(sep)` for a one-character separator: splits on
every occurrence of the separator and keeps empty parts, so the result always
has one more part than there are separators.  `pySplit sep [] = [[]]` just as
`"".split(sep) == [""]` in Python. -/
def pySplit (sep : Nat) : PyStr → List PyStr
  | [] => [[]]
  | c :: cs =>
    if c = sep then [] :: pySplit sep cs
    else
      match pySplit sep cs with
      | [] => [[c]]
      | p :: ps => (c :: p) :: ps

/-- The message of the `ValueError` raised by `canonicalise_email`. -/
def parseErrorMessage : String := "Unable to parse email address"

/-- Embedding of `canonicalise_email` (threepids.py lines 100-120): strip the
address, split on `@`; if there are not exactly two parts raise
`ValueError("Unable to parse email address")`, otherwise return
`casefold(local) + "@" + lower(domain)`. -/
def canonicalise_email (address : PyStr) : Except String PyStr :=
  match pySplit atSign (pyStrip address) with
  | [localPart, domain] => Except.ok (pyCasefold localPart ++ atSign :: pyLower domain)
  | _ => Except.error parseErrorMessage

/-! ### `check_3pid_allowed`

The function is `async` and consults two collaborators: the HTTP client
(`hs.get_simple_http_client().get_json`) and the regular-expression engine
(`re.match`).  Both are passed in as explicit functions.  Addresses, media and
patterns are opaque strings here; no character-level reasoning is needed. -/

/-- One entry of the `allowed_local_3pids` configuration list: a dict with a
`medium` key and a `pattern` key. -/
structure ThreePidConstraint where
  medium : String
  pattern : String
deriving DecidableEq

/-- The JSON body returned by the `internal-info` endpoint, with the four keys
the code reads.  `hs`/`shadow_hs` are `none` when the key is absent;
`requires_invite`/`invited` default to `False` via `data.get(_, False)`. -/
structure InternalInfo where
  hs : Option String
  shadow_hs : Option String
  requires_invite : Bool
  invited : Bool

/-- The slice of `hs.config` read by `check_3pid_allowed`.
`check_is_for_allowed_local_3pids` is `none` when the option is unset (falsy). -/
structure ThreePidHsConfig where
  check_is_for_allowed_local_3pids : Option String
  server_name : String
  allowed_local_3pids : List ThreePidConstraint

/-- Embedding of `check_3pid_allowed` (threepids.py lines 22-97).
`get_json host medium address` stands for the awaited
`get_json("https://" + host + "/_matrix/identity/api/v1/internal-info", ...)`
call; `re_match pattern address` stands for `re.match(pattern, address)`
being truthy (a match anchored at the start of the address). -/
def check_3pid_allowed (cfg : ThreePidHsConfig)
    (get_json : String → String → String → InternalInfo)
    (re_match : String → String → Bool)
    (medium address : String) (during_registration : Bool) : Bool :=
  match cfg.check_is_for_allowed_local_3pids, during_registration with
  | some check_host, true =>
    let data := get_json check_host medium address
    if data.hs = none ∧ data.shadow_hs = none then
      false
    else if data.hs ≠ some cfg.server_name ∧ data.shadow_hs ≠ some cfg.server_name then
      false
    else if data.requires_invite ∧ ¬data.invited then
      false
    else
      true
  | _, _ =>
    if cfg.allowed_local_3pids.isEmpty then
      true
    else
      cfg.allowed_local_3pids.any fun c =>
        decide (medium = c.medium) && re_match c.pattern address

/-! ## Part 2: the SSO identity-mapping workflow

`tests/handlers/test_saml.py` exercises `SamlHandler._handle_authn_response`
(together with the SSO handler that resolves local-parts), which is not part of
the excerpt.  The workflow is therefore modelled from the spec (sections 4.1
to 4.4, 7 and 8), pinned to the concrete observable behaviour that the tests
assert.  External collaborator calls are encoded in the outcome value:

* `SsoOutcome.completed a p u s n` is one
  `auth_handler.complete_sso_login(a, p, request, u, s, new_user=n)` call;
* `SsoOutcome.mappingError msg` is one
  `sso_handler.render_error(request, "mapping_error", msg)` call;
* `SsoOutcome.redirected loc` is a `RedirectException(loc)` propagating to the
  caller;
* `SsoOutcome.rejectedRequirements` is a silent return: neither collaborator
  is invoked.

The outcomes are mutually exclusive constructors, so exactly one collaborator
interaction happens per assertion-handling call. -/

/-- One SAML identity assertion: the attribute bag `ava` (each attribute maps
to a sequence of values, mirroring pysaml2) plus the optional
`in_response_to` correlation token carried by `FakeAuthnResponse`. -/
structure Assertion where
  ava : List (String × List String)
  in_response_to : Option String
deriving DecidableEq

/-- Python dict lookup on the attribute bag. -/
def avaLookup (attr : String) : List (String × List String) → Option (List String)
  | [] => none
  | kv :: rest => if attr = kv.1 then some kv.2 else avaLookup attr rest

/-- `ava.get(attr, [])`: the value sequence of an attribute, empty if absent. -/
def Assertion.get (a : Assertion) (attr : String) : List String :=
  (avaLookup attr a.ava).getD []

/-- `ava[attr]` read as a single string: the first value of the attribute
sequence, `none` when the attribute is absent or empty. -/
def Assertion.get1 (a : Assertion) (attr : String) : Option String :=
  (avaLookup attr a.ava).bind List.head?

/-- One configured attribute requirement: an `{"attribute": ..., "value": ...}`
pair from `saml2_config.attribute_requirements`. -/
structure AttributeRequirement where
  attr : String
  value : String
deriving DecidableEq

/-- Attribute Requirements Filter (spec section 4.1): every configured
requirement must expose the named attribute as a sequence containing the
required value; logical AND over all requirements, pure predicate. -/
def satisfies (a : Assertion) (reqs : List AttributeRequirement) : Bool :=
  reqs.all fun r => decide (r.value ∈ a.get r.attr)

/-- A redirect signal raised by a mapping policy instead of returning
(`RedirectException`); `location` is the target URL. -/
structure RedirectSignal where
  location : String
deriving DecidableEq

/-- The candidate account attributes produced by one invocation of a mapping
policy: the dict `{"mxid_localpart": ..., "displayname": ...}`. -/
structure UserAttributes where
  mxid_localpart : Option String
  displayname : Option String
deriving DecidableEq

/-- A pluggable mapping policy, reduced to its functional contract (the
legacy direct-call registration style and the callback-registration style both
satisfy it, cf. spec section 6):

* `get_remote_user_id assertion url` derives the remote user id;
* `extract assertion failures url` derives the candidate account attributes
  for the attempt with the given failure count, or raises a redirect. -/
structure MappingPolicy where
  get_remote_user_id : Assertion → String → Option String
  extract : Assertion → Nat → String → Except RedirectSignal UserAttributes

/-- The configuration surface the workflow consumes (spec section 6). -/
structure SsoConfig where
  map_username_retries : Nat
  attribute_requirements : List AttributeRequirement
  grandfathered_mxid_source_attribute : Option String
  server_name : String

/-- The slice of the datastore the workflow touches: the registered account
ids and the stored remote-id to account-id bindings. -/
structure Store where
  registered : List String
  bindings : List (String × String)
deriving DecidableEq

/-- First binding stored for a remote user id
(`IdentifierStore.lookup_binding`). -/
def alookup (k : String) : List (String × String) → Option String
  | [] => none
  | kv :: rest => if k = kv.1 then some kv.2 else alookup k rest

/-- A full Matrix user id from a local-part:
`"@" + localpart + ":" + server_name`. -/
def mk_mxid (localpart server_name : String) : String :=
  "@" ++ localpart ++ ":" ++ server_name

/-- Modelled from the spec: the identifier-validity character-set rule for a
candidate local-part (spec section 4.2 edge case; the checker itself,
the `contains_invalid_mxid_characters` checker of synapse is not in the excerpt).  A
local-part may contain lowercase ASCII letters, digits and `_ - . / =`; the
spec example rejects a local-part containing `ö`. -/
def mxid_localpart_char_allowed (c : Char) : Bool :=
  c.isLower || c.isDigit || c == '.' || c == '_' || c == '=' || c == '-' || c == '/'

/-- A candidate local-part passes the identifier-validity rules when every
character is allowed. -/
def localpart_valid (lp : String) : Bool :=
  lp.data.all mxid_localpart_char_allowed

/-- The terminal outcome of one assertion-handling call (spec sections 4.4 and
7).  Each constructor records the one external collaborator interaction of the
call, as described in the section comment above. -/
inductive SsoOutcome where
  | completed (account_id provider redirect_url : String)
      (session : Option String) (new_user : Bool)
  | rejectedRequirements
  | mappingError (message : String)
  | redirected (location : String)
deriving DecidableEq

/-- The fixed message of the exhaustion error (spec section 8). -/
def exhaustedMessage : String := "Unable to generate a Matrix ID from the SSO response"

/-- `ExhaustionError`: no free identifier was found within the retry bound;
reported through the error collaborator with the fixed message. -/
def ExhaustionError : SsoOutcome := SsoOutcome.mappingError exhaustedMessage

/-- `ValidationError`: the candidate local-part failed the identifier-validity
rules; reported with a message naming the offending local-part. -/
def ValidationError (localpart : String) : SsoOutcome :=
  SsoOutcome.mappingError ("localpart is invalid: " ++ localpart)

/-- Modelled from the spec: message for the unexercised path in which a policy
returns no local-part at all. -/
def missingLocalpartMessage : String :=
  "Error parsing SSO response: no localpart returned by the mapping provider"

/-- Modelled from the spec: message for the unexercised path in which a policy
returns no remote user id. -/
def missingRemoteIdMessage : String := "Unable to map the SSO response to a user ID"

/-- The observable result of one assertion-handling call: the terminal outcome,
the datastore after the call, and the trace of failure counts passed to the
extraction step of the mapping policy (one entry per invocation, in order). -/
structure HandleResult where
  outcome : SsoOutcome
  store : Store
  extract_trace : List Nat
deriving DecidableEq

/-- Modelled from the spec: the Local-Part Resolver loop (spec section 4.2),
with the division of labour fixed by the test mapping providers: each attempt
`i` invokes the extraction step of the policy with failure count `i` and the policy
returns the full candidate local-part for that attempt.  The attempt fails
over to the next failure count exactly when the candidate account id is
already registered; an invalid candidate aborts immediately with a
`ValidationError`; a redirect raised by the policy propagates; when the
attempt budget is exhausted the loop fails with `ExhaustionError`.  On success
the account is registered and the remote binding is stored. -/
def resolveAttempts (cfg : SsoConfig) (policy : MappingPolicy) (a : Assertion)
    (url rid : String) (store : Store) : Nat → Nat → HandleResult
  | 0, _ => ⟨ExhaustionError, store, []⟩
  | r + 1, i =>
    match policy.extract a i url with
    | Except.error sig => ⟨SsoOutcome.redirected sig.location, store, [i]⟩
    | Except.ok attrs =>
      match attrs.mxid_localpart with
      | none => ⟨SsoOutcome.mappingError missingLocalpartMessage, store, [i]⟩
      | some lp =>
        if localpart_valid lp then
          if mk_mxid lp cfg.server_name ∈ store.registered then
            let rest := resolveAttempts cfg policy a url rid store r (i + 1)
            ⟨rest.outcome, rest.store, i :: rest.extract_trace⟩
          else
            ⟨SsoOutcome.completed (mk_mxid lp cfg.server_name) "saml" url none true,
             ⟨mk_mxid lp cfg.server_name :: store.registered,
              (rid, mk_mxid lp cfg.server_name) :: store.bindings⟩,
             [i]⟩
        else ⟨ValidationError lp, store, [i]⟩

/-- Modelled from the spec: the grandfathering lookup (spec section 4.3, path
2).  When a grandfathering attribute is configured, its values are read from
the assertion and the first value naming an already-registered account is
adopted as the binding. -/
def grandfatherLookup (cfg : SsoConfig) (store : Store) (a : Assertion) : Option String :=
  match cfg.grandfathered_mxid_source_attribute with
  | none => none
  | some attr =>
    (a.get attr).findSome? fun v =>
      if mk_mxid v cfg.server_name ∈ store.registered then
        some (mk_mxid v cfg.server_name)
      else none

/-- Modelled from the spec: one assertion-handling call
(`SamlHandler._handle_authn_response`; spec section 4.4 state machine).

* requirements check (4.1) first; on failure terminate silently;
* derive the remote user id;
* stored-binding lookup, then grandfathering (4.3): either hit completes with
  `new_user := false`, the grandfathering hit also records the binding;
* otherwise run the local-part resolver loop (4.2). -/
def handle_authn_response (cfg : SsoConfig) (policy : MappingPolicy)
    (store : Store) (a : Assertion) (url : String) : HandleResult :=
  if satisfies a cfg.attribute_requirements then
    match policy.get_remote_user_id a url with
    | none => ⟨SsoOutcome.mappingError missingRemoteIdMessage, store, []⟩
    | some rid =>
      match alookup rid store.bindings with
      | some acct => ⟨SsoOutcome.completed acct "saml" url none false, store, []⟩
      | none =>
        match grandfatherLookup cfg store a with
        | some acct =>
          ⟨SsoOutcome.completed acct "saml" url none false,
           ⟨store.registered, (rid, acct) :: store.bindings⟩, []⟩
        | none =>
          resolveAttempts cfg policy a url rid store cfg.map_username_retries 0
  else ⟨SsoOutcome.rejectedRequirements, store, []⟩

/-- The candidate local-part produced by the test mapping providers at a given
failure count: `saml_response.ava["username"] + (str(failures) if failures
else "")` (test_saml.py lines 70-74 and 95-99). -/
def testCandidate (username : String) (failures : Nat) : String :=
  username ++ (if failures = 0 then "" else toString failures)

/-- Embedding of `LegacyTestMappingProvider` / `TestMappingProvider`
(test_saml.py): the remote user id is `ava["uid"]`, the candidate local-part
is the username with the failure-count suffix. -/
def testPolicy : MappingPolicy where
  get_remote_user_id a _ := a.get1 "uid"
  extract a failures _ :=
    match a.get1 "username" with
    | some u => Except.ok ⟨some (testCandidate u failures), none⟩
    | none => Except.ok ⟨none, none⟩

/-- Embedding of `LegacyTestRedirectMappingProvider` /
`TestRedirectMappingProvider` (test_saml.py): extraction raises
`RedirectException(b"https://custom-saml-redirect/")`. -/
def testRedirectPolicy : MappingPolicy where
  get_remote_user_id a _ := a.get1 "uid"
  extract _ _ _ := Except.error ⟨"https://custom-saml-redirect/"⟩

/-! ### Concrete test scenarios

These mirror the fixtures of `test_saml.py`: server name `test`, retry bound
3 (`sso_handler._MAP_USERNAME_RETRIES = 3`), and the various fake responses. -/

/-- The test configuration: retry bound 3, no attribute requirements,
grandfathering disabled, server name `test`. -/
def testCfg : SsoConfig := ⟨3, [], none, "test"⟩

/-- The empty datastore. -/
def emptyStore : Store := ⟨[], []⟩

/-- The datastore of the retries test after `@test_user:test` is registered. -/
def retriesStore : Store := ⟨["@test_user:test"], []⟩

/-- `FakeAuthnResponse({"uid": "test", "username": "test_user"})`. -/
def retriesAssertion : Assertion := ⟨[("uid", ["test"]), ("username", ["test_user"])], none⟩

/-- The datastore of the exhaustion scenario: `@tester:test`, `@tester1:test`
and `@tester2:test` are all registered. -/
def exhaustStore : Store := ⟨["@tester:test", "@tester1:test", "@tester2:test"], []⟩

/-- `FakeAuthnResponse({"uid": "tester", "username": "tester"})`. -/
def exhaustAssertion : Assertion := ⟨[("uid", ["tester"]), ("username", ["tester"])], none⟩

/-- `FakeAuthnResponse({"uid": "test", "username": "föö"})`. -/
def invalidAssertion : Assertion := ⟨[("uid", ["test"]), ("username", ["föö"])], none⟩

/-- The grandfathering configuration:
`grandfathered_mxid_source_attribute = "mxid"`. -/
def grandfatherCfg : SsoConfig := ⟨3, [], some "mxid", "test"⟩

/-- `FakeAuthnResponse({"uid": "tester", "mxid": ["test_user"],
"username": "test_user"})`. -/
def grandfatherAssertion : Assertion :=
  ⟨[("uid", ["tester"]), ("mxid", ["test_user"]), ("username", ["test_user"])], none⟩

/-- The attribute-requirements configuration: `userGroup` must contain
`staff` and `department` must contain `sales`. -/
def requirementsCfg : SsoConfig :=
  ⟨3, [⟨"userGroup", "staff"⟩, ⟨"department", "sales"⟩], none, "test"⟩

/-- `FakeAuthnResponse({"uid": "test_user", "username": "test_user"})`, which
has neither required attribute. -/
def requirementsAssertion : Assertion :=
  ⟨[("uid", ["test_user"]), ("username", ["test_user"])], none⟩

/-! ## Helper lemmas for Part 1 -/

theorem pySplit_ne_nil (sep : Nat) (l : PyStr) : pySplit sep l ≠ [] := by
  cases l with
  | nil => simp [pySplit]
  | cons c cs =>
    simp only [pySplit]
    split
    · simp
    · split <;> simp

theorem pySplit_no_sep (sep : Nat) (l : PyStr) (h : sep ∉ l) : pySplit sep l = [l] := by
  induction l with
  | nil => rfl
  | cons c cs ih =>
    rw [List.mem_cons, not_or] at h
    have hc : ¬(c = sep) := fun e => h.1 e.symm
    simp only [pySplit, if_neg hc, ih h.2]

theorem pySplit_append (sep : Nat) (x y : PyStr) (hx : sep ∉ x) :
    pySplit sep (x ++ sep :: y) = x :: pySplit sep y := by
  induction x with
  | nil => simp [pySplit]
  | cons c cs ih =>
    rw [List.mem_cons, not_or] at hx
    have hc : ¬(c = sep) := fun e => hx.1 e.symm
    simp only [List.cons_append, pySplit, List.append_eq, if_neg hc, ih hx.2]

theorem pySplit_eq_single (sep : Nat) (l q : PyStr) (h : pySplit sep l = [q]) :
    l = q ∧ sep ∉ q := by
  induction l generalizing q with
  | nil =>
    simp only [pySplit] at h
    injection h with h1 _
    subst h1
    simp
  | cons c cs ih =>
    by_cases hc : c = sep
    · subst hc
      simp only [pySplit, if_pos rfl] at h
      injection h with _ h2
      exact absurd h2 (pySplit_ne_nil c cs)
    · simp only [pySplit, if_neg hc] at h
      rcases hsp : pySplit sep cs with _ | ⟨p, ps⟩
      · exact absurd hsp (pySplit_ne_nil sep cs)
      · rw [hsp] at h
        injection h with h1 h2
        subst h2
        obtain ⟨hcs, hp⟩ := ih p hsp
        subst hcs
        refine ⟨h1, ?_⟩
        rw [← h1, List.mem_cons, not_or]
        exact ⟨fun e => hc e.symm, hp⟩

theorem pySplit_eq_pair (sep : Nat) (l p q : PyStr) (h : pySplit sep l = [p, q]) :
    l = p ++ sep :: q ∧ sep ∉ p ∧ sep ∉ q := by
  induction l generalizing p with
  | nil =>
    simp only [pySplit] at h
    injection h with _ h2
    exact absurd h2.symm (List.cons_ne_nil q [])
  | cons c cs ih =>
    by_cases hc : c = sep
    · subst hc
      simp only [pySplit, if_pos rfl] at h
      injection h with h1 h2
      obtain ⟨hcs, hq⟩ := pySplit_eq_single c cs q h2
      subst hcs
      subst h1
      exact ⟨rfl, by simp, hq⟩
    · simp only [pySplit, if_neg hc] at h
      rcases hsp : pySplit sep cs with _ | ⟨p0, ps⟩
      · exact absurd hsp (pySplit_ne_nil sep cs)
      · rw [hsp] at h
        injection h with h1 h2
        subst h2
        obtain ⟨hcs, hp0, hq⟩ := ih p0 hsp
        subst hcs
        refine ⟨by rw [← h1, List.cons_append], ?_, hq⟩
        rw [← h1, List.mem_cons, not_or]
        exact ⟨fun e => hc e.symm, hp0⟩

theorem pyLowerChar_idem (c : Nat) : pyLowerChar (pyLowerChar c) = pyLowerChar c := by
  simp only [pyLowerChar]
  split_ifs <;> omega

theorem pyIsSpace_pyLowerChar (c : Nat) : pyIsSpace (pyLowerChar c) = pyIsSpace c := by
  simp only [pyIsSpace, pyLowerChar]
  split_ifs with h
  · exact decide_eq_decide.mpr (by omega)
  · rfl

theorem pyLowerChar_eq_atSign (c : Nat) (h : pyLowerChar c = atSign) : c = atSign := by
  simp only [pyLowerChar, atSign] at h ⊢
  split_ifs at h <;> omega

theorem atSign_not_mem_map (l : PyStr) (h : atSign ∉ l) : atSign ∉ l.map pyLowerChar := by
  intro hmem
  rw [List.mem_map] at hmem
  obtain ⟨c, hc, hce⟩ := hmem
  exact h (pyLowerChar_eq_atSign c hce ▸ hc)

theorem map_pyLowerChar_idem (l : PyStr) :
    (l.map pyLowerChar).map pyLowerChar = l.map pyLowerChar := by
  rw [List.map_map]
  exact List.map_congr_left fun c _ => pyLowerChar_idem c

theorem dropWhile_head_false (p : Nat → Bool) (l : PyStr) (c : Nat) (cs : PyStr)
    (h : List.dropWhile p l = c :: cs) : p c = false := by
  induction l with
  | nil => exact absurd h (by simp)
  | cons a as ih =>
    rw [List.dropWhile_cons] at h
    by_cases hp : p a = true
    · rw [if_pos hp] at h
      exact ih h
    · rw [if_neg hp] at h
      injection h with h1 _
      rw [← h1]
      exact Bool.not_eq_true _ |>.mp hp

theorem pyStrip_head_not_space (l : PyStr) (c : Nat) (cs : PyStr)
    (h : pyStrip l = c :: cs) : pyIsSpace c = false := by
  obtain ⟨t, ht⟩ := List.rdropWhile_prefix pyIsSpace (List.dropWhile pyIsSpace l)
  rw [pyStrip] at h
  rw [h, List.cons_append] at ht
  exact dropWhile_head_false pyIsSpace l c (cs ++ t) ht.symm

theorem pyStrip_lstripped (l : PyStr) :
    List.dropWhile pyIsSpace (pyStrip l) = pyStrip l := by
  rcases h : pyStrip l with _ | ⟨c, cs⟩
  · rfl
  · have hc := pyStrip_head_not_space l c cs h
    simp [List.dropWhile_cons, hc]

theorem pyStrip_idem (l : PyStr) : pyStrip (pyStrip l) = pyStrip l := by
  rw [pyStrip, pyStrip_lstripped l]
  rw [pyStrip, List.rdropWhile_idempotent]

theorem dropWhile_space_map (l : PyStr) :
    List.dropWhile pyIsSpace (l.map pyLowerChar)
      = (List.dropWhile pyIsSpace l).map pyLowerChar := by
  rw [List.dropWhile_map]
  have hfe : pyIsSpace ∘ pyLowerChar = pyIsSpace := funext pyIsSpace_pyLowerChar
  rw [hfe]

theorem pyStrip_map (l : PyStr) :
    pyStrip (l.map pyLowerChar) = (pyStrip l).map pyLowerChar := by
  rw [pyStrip, dropWhile_space_map, pyStrip, List.rdropWhile, List.rdropWhile,
    ← List.map_reverse, dropWhile_space_map, ← List.map_reverse]

/-! ## Claims C8, C9, C10 -/

/-- C8: for every input string, `canonicalise_email` raises `ValueError` iff
the whitespace-stripped address does not split on `@` into exactly two parts;
otherwise it returns the case-folded local part joined by `@` to the
lower-cased domain part, and raises nothing. -/
theorem C8_canonicalise_email_contract (a : PyStr) :
    (canonicalise_email a = Except.error parseErrorMessage
        ↔ (pySplit atSign (pyStrip a)).length ≠ 2)
    ∧ ∀ p q, pySplit atSign (pyStrip a) = [p, q] →
        canonicalise_email a = Except.ok (pyCasefold p ++ atSign :: pyLower q) := by
  unfold canonicalise_email
  rcases h : pySplit atSign (pyStrip a) with _ | ⟨p0, _ | ⟨p1, _ | ⟨p2, ps⟩⟩⟩ <;>
    simp_all

/-- Witness for C8 at the concrete address `"F@B"` (code points 70, 64, 66):
it splits into exactly two parts and canonicalises to `"f@b"`. -/
theorem C8_witness :
    (canonicalise_email [70, 64, 66] = Except.error parseErrorMessage
        ↔ (pySplit atSign (pyStrip [70, 64, 66])).length ≠ 2)
    ∧ canonicalise_email [70, 64, 66]
        = Except.ok (pyCasefold [70] ++ atSign :: pyLower [66]) :=
  ⟨(C8_canonicalise_email_contract [70, 64, 66]).1,
   (C8_canonicalise_email_contract [70, 64, 66]).2 [70] [66] (by decide)⟩

/-- C9: `canonicalise_email` is idempotent: whenever it succeeds, applying it
to its own output succeeds and returns the same string. -/
theorem C9_canonicalise_email_idempotent (a b : PyStr)
    (h : canonicalise_email a = Except.ok b) :
    canonicalise_email b = Except.ok b := by
  unfold canonicalise_email at h
  rcases hs : pySplit atSign (pyStrip a) with _ | ⟨p, _ | ⟨q, _ | ⟨r, ps⟩⟩⟩ <;> rw [hs] at h
  · exact absurd h (by simp)
  · exact absurd h (by simp)
  case cons.cons.cons => exact absurd h (by simp)
  have hb : pyCasefold p ++ atSign :: pyLower q = b := by simpa using h
  obtain ⟨hdec, hp, hq⟩ := pySplit_eq_pair atSign (pyStrip a) p q hs
  have hat : pyLowerChar atSign = atSign := by decide
  have hmap : b = (pyStrip a).map pyLowerChar := by
    rw [← hb, hdec, List.map_append, List.map_cons, hat]
    rfl
  have hstripb : pyStrip b = b := by
    rw [hmap, pyStrip_map, pyStrip_idem, ← hmap]
  have hsplitb : pySplit atSign b = [pyCasefold p, pyLower q] := by
    rw [← hb]
    rw [show pyCasefold p ++ atSign :: pyLower q
          = pyCasefold p ++ atSign :: pyLower q from rfl]
    rw [pySplit_append atSign (pyCasefold p) (pyLower q) (atSign_not_mem_map p hp),
      pySplit_no_sep atSign (pyLower q) (atSign_not_mem_map q hq)]
  unfold canonicalise_email
  rw [hstripb, hsplitb, ← hb]
  simp only [pyCasefold, pyLower]
  rw [map_pyLowerChar_idem, map_pyLowerChar_idem]

/-- Witness for C9 at the concrete address `"F@B"`, which canonicalises to
`"f@b"` (code points 102, 64, 98); canonicalising again is the identity. -/
theorem C9_witness : canonicalise_email [102, 64, 98] = Except.ok [102, 64, 98] :=
  C9_canonicalise_email_idempotent [70, 64, 66] [102, 64, 98] rfl

/-- C10: when the invite-check configuration does not apply
(`check_is_for_allowed_local_3pids` unset or not during registration),
`check_3pid_allowed` returns `True` if `allowed_local_3pids` is empty, and
otherwise returns `True` iff some configured constraint has a matching medium
and a pattern matching at the start of the address. -/
theorem C10_check_3pid_allowed_contract (cfg : ThreePidHsConfig)
    (get_json : String → String → String → InternalInfo)
    (re_match : String → String → Bool)
    (medium address : String) (during_registration : Bool)
    (h : cfg.check_is_for_allowed_local_3pids = none ∨ during_registration = false) :
    (cfg.allowed_local_3pids = [] →
        check_3pid_allowed cfg get_json re_match medium address during_registration = true)
    ∧ (cfg.allowed_local_3pids ≠ [] →
        (check_3pid_allowed cfg get_json re_match medium address during_registration = true
          ↔ ∃ c ∈ cfg.allowed_local_3pids,
              medium = c.medium ∧ re_match c.pattern address = true)) := by
  have hbranch : check_3pid_allowed cfg get_json re_match medium address during_registration
      = if cfg.allowed_local_3pids.isEmpty then true
        else cfg.allowed_local_3pids.any fun c =>
          decide (medium = c.medium) && re_match c.pattern address := by
    unfold check_3pid_allowed
    rcases h with h | h <;> rw [h] <;> cases during_registration <;>
      cases hc : cfg.check_is_for_allowed_local_3pids <;> rfl
  rw [hbranch]
  constructor
  · intro he
    rw [he]
    rfl
  · intro hne
    rw [if_neg (by simpa [List.isEmpty_iff] using hne)]
    simp [List.any_eq_true, Bool.and_eq_true, decide_eq_true_eq, and_assoc]

/-- Witness for C10: a configuration with the invite check unset and a single
email constraint whose pattern matches, so the 3PID is allowed. -/
theorem C10_witness :
    check_3pid_allowed ⟨none, "test", [⟨"email", "test@"⟩]⟩
      (fun _ _ _ => ⟨none, none, false, false⟩) (fun _ _ => true)
      "email" "test@example.com" false = true :=
  ((C10_check_3pid_allowed_contract ⟨none, "test", [⟨"email", "test@"⟩]⟩
      (fun _ _ _ => ⟨none, none, false, false⟩) (fun _ _ => true)
      "email" "test@example.com" false (Or.inl rfl)).2 (by simp)).mpr
    ⟨⟨"email", "test@"⟩, by simp, rfl, rfl⟩

/-! ## Helper lemmas for Part 2 -/

theorem satisfies_iff (a : Assertion) (reqs : List AttributeRequirement) :
    satisfies a reqs = true ↔ ∀ r ∈ reqs, r.value ∈ a.get r.attr := by
  simp [satisfies, List.all_eq_true]

theorem alookup_cons_self (k v : String) (l : List (String × String)) :
    alookup k ((k, v) :: l) = some v := by
  simp [alookup]

theorem resolveAttempts_zero (cfg : SsoConfig) (policy : MappingPolicy) (a : Assertion)
    (url rid : String) (store : Store) (i : Nat) :
    resolveAttempts cfg policy a url rid store 0 i = ⟨ExhaustionError, store, []⟩ := rfl

theorem resolveAttempts_succ_ok (cfg : SsoConfig) (policy : MappingPolicy) (a : Assertion)
    (url rid : String) (store : Store) (r i : Nat) (lp : String) (d : Option String)
    (hext : policy.extract a i url = Except.ok ⟨some lp, d⟩) :
    resolveAttempts cfg policy a url rid store (r + 1) i =
      if localpart_valid lp then
        if mk_mxid lp cfg.server_name ∈ store.registered then
          let rest := resolveAttempts cfg policy a url rid store r (i + 1)
          ⟨rest.outcome, rest.store, i :: rest.extract_trace⟩
        else
          ⟨SsoOutcome.completed (mk_mxid lp cfg.server_name) "saml" url none true,
           ⟨mk_mxid lp cfg.server_name :: store.registered,
            (rid, mk_mxid lp cfg.server_name) :: store.bindings⟩,
           [i]⟩
      else ⟨ValidationError lp, store, [i]⟩ := by
  conv_lhs => rw [resolveAttempts]
  rw [hext]

theorem resolveAttempts_succ_redirect (cfg : SsoConfig) (policy : MappingPolicy)
    (a : Assertion) (url rid : String) (store : Store) (r i : Nat) (sig : RedirectSignal)
    (hext : policy.extract a i url = Except.error sig) :
    resolveAttempts cfg policy a url rid store (r + 1) i =
      ⟨SsoOutcome.redirected sig.location, store, [i]⟩ := by
  conv_lhs => rw [resolveAttempts]
  rw [hext]

theorem resolveAttempts_succ_none (cfg : SsoConfig) (policy : MappingPolicy)
    (a : Assertion) (url rid : String) (store : Store) (r i : Nat) (d : Option String)
    (hext : policy.extract a i url = Except.ok ⟨none, d⟩) :
    resolveAttempts cfg policy a url rid store (r + 1) i =
      ⟨SsoOutcome.mappingError missingLocalpartMessage, store, [i]⟩ := by
  conv_lhs => rw [resolveAttempts]
  rw [hext]

theorem resolveAttempts_success (cfg : SsoConfig) (policy : MappingPolicy) (a : Assertion)
    (url rid : String) (store : Store) (candFn : Nat → String)
    (hext : ∀ j, policy.extract a j url = Except.ok ⟨some (candFn j), none⟩) :
    ∀ N r i, N < r →
    (∀ k, k ≤ N → localpart_valid (candFn (i + k)) = true) →
    (∀ k, k < N → mk_mxid (candFn (i + k)) cfg.server_name ∈ store.registered) →
    mk_mxid (candFn (i + N)) cfg.server_name ∉ store.registered →
    resolveAttempts cfg policy a url rid store r i =
      ⟨SsoOutcome.completed (mk_mxid (candFn (i + N)) cfg.server_name) "saml" url none true,
       ⟨mk_mxid (candFn (i + N)) cfg.server_name :: store.registered,
        (rid, mk_mxid (candFn (i + N)) cfg.server_name) :: store.bindings⟩,
       List.range' i (N + 1)⟩ := by
  intro N
  induction N with
  | zero =>
    intro r i hr hvalid hreg hfree
    obtain ⟨r2, rfl⟩ : ∃ r2, r = r2 + 1 := ⟨r - 1, by omega⟩
    rw [resolveAttempts_succ_ok cfg policy a url rid store r2 i (candFn i) none (hext i)]
    have hv : localpart_valid (candFn i) = true := by
      have := hvalid 0 (Nat.le_refl 0)
      rwa [Nat.add_zero] at this
    rw [Nat.add_zero] at hfree
    rw [if_pos hv, if_neg hfree]
    rfl
  | succ N ih =>
    intro r i hr hvalid hreg hfree
    obtain ⟨r2, rfl⟩ : ∃ r2, r = r2 + 1 := ⟨r - 1, by omega⟩
    rw [resolveAttempts_succ_ok cfg policy a url rid store r2 i (candFn i) none (hext i)]
    have hv : localpart_valid (candFn i) = true := by
      have := hvalid 0 (Nat.zero_le _)
      rwa [Nat.add_zero] at this
    have hm : mk_mxid (candFn i) cfg.server_name ∈ store.registered := by
      have := hreg 0 (Nat.succ_pos N)
      rwa [Nat.add_zero] at this
    rw [if_pos hv, if_pos hm]
    have hshift : ∀ k, (i + 1) + k = i + (k + 1) := by omega
    have hrec := ih r2 (i + 1) (by omega)
      (fun k hk => by rw [hshift k]; exact hvalid (k + 1) (by omega))
      (fun k hk => by rw [hshift k]; exact hreg (k + 1) (by omega))
      (by rw [hshift N]; exact hfree)
    rw [hrec]
    have hidx : (i + 1) + N = i + (N + 1) := by omega
    rw [hidx]
    have hrange : List.range' i (N + 1 + 1) = i :: List.range' (i + 1) (N + 1) :=
      List.range'_succ i (N + 1) 1
    rw [hrange]

theorem resolveAttempts_exhaust (cfg : SsoConfig) (policy : MappingPolicy) (a : Assertion)
    (url rid : String) (store : Store) (candFn : Nat → String)
    (hext : ∀ j, policy.extract a j url = Except.ok ⟨some (candFn j), none⟩) :
    ∀ r i,
    (∀ k, k < r → localpart_valid (candFn (i + k)) = true) →
    (∀ k, k < r → mk_mxid (candFn (i + k)) cfg.server_name ∈ store.registered) →
    resolveAttempts cfg policy a url rid store r i
      = ⟨ExhaustionError, store, List.range' i r⟩ := by
  intro r
  induction r with
  | zero => intro i _ _; rfl
  | succ r ih =>
    intro i hvalid hreg
    rw [resolveAttempts_succ_ok cfg policy a url rid store r i (candFn i) none (hext i)]
    have hv : localpart_valid (candFn i) = true := by
      have := hvalid 0 (Nat.succ_pos r)
      rwa [Nat.add_zero] at this
    have hm : mk_mxid (candFn i) cfg.server_name ∈ store.registered := by
      have := hreg 0 (Nat.succ_pos r)
      rwa [Nat.add_zero] at this
    rw [if_pos hv, if_pos hm]
    have hshift : ∀ k, (i + 1) + k = i + (k + 1) := by omega
    have hrec := ih (i + 1)
      (fun k hk => by rw [hshift k]; exact hvalid (k + 1) (by omega))
      (fun k hk => by rw [hshift k]; exact hreg (k + 1) (by omega))
    rw [hrec]
    have hrange : List.range' i (r + 1) = i :: List.range' (i + 1) r :=
      List.range'_succ i r 1
    rw [hrange]

theorem resolveAttempts_trace (cfg : SsoConfig) (policy : MappingPolicy) (a : Assertion)
    (url rid : String) (store : Store) :
    ∀ r i, (resolveAttempts cfg policy a url rid store r i).extract_trace
      = List.range' i (resolveAttempts cfg policy a url rid store r i).extract_trace.length := by
  intro r
  induction r with
  | zero => intro i; rfl
  | succ r ih =>
    intro i
    rcases hext : policy.extract a i url with sig | attrs
    · rw [resolveAttempts_succ_redirect cfg policy a url rid store r i sig hext]
      rfl
    · rcases attrs with ⟨mlp, d⟩
      rcases mlp with _ | lp
      · rw [resolveAttempts_succ_none cfg policy a url rid store r i d hext]
        rfl
      · rw [resolveAttempts_succ_ok cfg policy a url rid store r i lp d hext]
        by_cases hv : localpart_valid lp = true
        · rw [if_pos hv]
          by_cases hm : mk_mxid lp cfg.server_name ∈ store.registered
          · rw [if_pos hm]
            simp only
            rw [List.length_cons, List.range'_succ]
            exact congrArg (i :: ·) (ih (i + 1))
          · rw [if_neg hm]
            rfl
        · rw [if_neg hv]
          rfl

theorem resolveAttempts_trace_length (cfg : SsoConfig) (policy : MappingPolicy) (a : Assertion)
    (url rid : String) (store : Store) :
    ∀ r i, (resolveAttempts cfg policy a url rid store r i).extract_trace.length ≤ r := by
  intro r
  induction r with
  | zero => intro i; exact Nat.le_refl 0
  | succ r ih =>
    intro i
    rcases hext : policy.extract a i url with sig | attrs
    · rw [resolveAttempts_succ_redirect cfg policy a url rid store r i sig hext]
      simp
    · rcases attrs with ⟨mlp, d⟩
      rcases mlp with _ | lp
      · rw [resolveAttempts_succ_none cfg policy a url rid store r i d hext]
        simp
      · rw [resolveAttempts_succ_ok cfg policy a url rid store r i lp d hext]
        by_cases hv : localpart_valid lp = true
        · rw [if_pos hv]
          by_cases hm : mk_mxid lp cfg.server_name ∈ store.registered
          · rw [if_pos hm]
            simp only [List.length_cons]
            exact Nat.succ_le_succ (ih (i + 1))
          · rw [if_neg hm]
            simp
        · rw [if_neg hv]
          simp

theorem resolveAttempts_completed_bindings (cfg : SsoConfig) (policy : MappingPolicy)
    (a : Assertion) (url rid : String) (store : Store) :
    ∀ r i acct p u s n,
    (resolveAttempts cfg policy a url rid store r i).outcome
        = SsoOutcome.completed acct p u s n →
    (resolveAttempts cfg policy a url rid store r i).store.bindings
        = (rid, acct) :: store.bindings := by
  intro r
  induction r with
  | zero =>
    intro i acct p u s n h
    exact absurd h (by simp [resolveAttempts_zero, ExhaustionError])
  | succ r ih =>
    intro i acct p u s n h
    rcases hext : policy.extract a i url with sig | attrs
    · rw [resolveAttempts_succ_redirect cfg policy a url rid store r i sig hext] at h ⊢
      exact absurd h (by simp)
    · rcases attrs with ⟨mlp, d⟩
      rcases mlp with _ | lp
      · rw [resolveAttempts_succ_none cfg policy a url rid store r i d hext] at h
        exact absurd h (by simp)
      · rw [resolveAttempts_succ_ok cfg policy a url rid store r i lp d hext] at h ⊢
        by_cases hv : localpart_valid lp = true
        · rw [if_pos hv] at h ⊢
          by_cases hm : mk_mxid lp cfg.server_name ∈ store.registered
          · rw [if_pos hm] at h ⊢
            exact ih (i + 1) acct p u s n h
          · rw [if_neg hm] at h ⊢
            simp only at h
            injection h with hacct _
            rw [← hacct]
        · rw [if_neg hv] at h ⊢
          exact absurd h (by simp [ValidationError])

theorem grandfatherLookup_none (cfg : SsoConfig) (store : Store) (a : Assertion)
    (h : cfg.grandfathered_mxid_source_attribute = none) :
    grandfatherLookup cfg store a = none := by
  unfold grandfatherLookup
  rw [h]

theorem handle_authn_response_requirements (cfg : SsoConfig) (policy : MappingPolicy)
    (store : Store) (a : Assertion) (url : String)
    (hreq : satisfies a cfg.attribute_requirements = false) :
    handle_authn_response cfg policy store a url
      = ⟨SsoOutcome.rejectedRequirements, store, []⟩ := by
  unfold handle_authn_response
  rw [hreq]
  rfl

theorem handle_authn_response_bound (cfg : SsoConfig) (policy : MappingPolicy)
    (store : Store) (a : Assertion) (url rid acct : String)
    (hreq : satisfies a cfg.attribute_requirements = true)
    (hrid : policy.get_remote_user_id a url = some rid)
    (hbind : alookup rid store.bindings = some acct) :
    handle_authn_response cfg policy store a url
      = ⟨SsoOutcome.completed acct "saml" url none false, store, []⟩ := by
  simp only [handle_authn_response, hreq, hrid, hbind, if_true]

theorem handle_authn_response_resolver (cfg : SsoConfig) (policy : MappingPolicy)
    (store : Store) (a : Assertion) (url rid : String)
    (hreq : satisfies a cfg.attribute_requirements = true)
    (hrid : policy.get_remote_user_id a url = some rid)
    (hbind : alookup rid store.bindings = none)
    (hgf : grandfatherLookup cfg store a = none) :
    handle_authn_response cfg policy store a url
      = resolveAttempts cfg policy a url rid store cfg.map_username_retries 0 := by
  simp only [handle_authn_response, hreq, hrid, hbind, hgf, if_true]

theorem handle_authn_response_grandfather (cfg : SsoConfig) (policy : MappingPolicy)
    (store : Store) (a : Assertion) (url rid acct : String)
    (hreq : satisfies a cfg.attribute_requirements = true)
    (hrid : policy.get_remote_user_id a url = some rid)
    (hbind : alookup rid store.bindings = none)
    (hgf : grandfatherLookup cfg store a = some acct) :
    handle_authn_response cfg policy store a url
      = ⟨SsoOutcome.completed acct "saml" url none false,
         ⟨store.registered, (rid, acct) :: store.bindings⟩, []⟩ := by
  simp only [handle_authn_response, hreq, hrid, hbind, hgf, if_true]

theorem handle_completed_binding (cfg : SsoConfig) (policy : MappingPolicy)
    (store : Store) (a : Assertion) (url acct p u : String) (s : Option String) (n : Bool)
    (h : (handle_authn_response cfg policy store a url).outcome
        = SsoOutcome.completed acct p u s n) :
    satisfies a cfg.attribute_requirements = true
    ∧ ∃ rid, policy.get_remote_user_id a url = some rid
        ∧ alookup rid (handle_authn_response cfg policy store a url).store.bindings
            = some acct := by
  by_cases hreq : satisfies a cfg.attribute_requirements = true
  case neg =>
    rw [handle_authn_response_requirements cfg policy store a url
      (Bool.not_eq_true _ |>.mp hreq)] at h
    exact absurd h (by simp)
  refine ⟨hreq, ?_⟩
  rcases hrid : policy.get_remote_user_id a url with _ | rid
  · have hh : handle_authn_response cfg policy store a url
        = ⟨SsoOutcome.mappingError missingRemoteIdMessage, store, []⟩ := by
      simp only [handle_authn_response, hreq, hrid, if_true]
    rw [hh] at h
    exact absurd h (by simp)
  refine ⟨rid, rfl, ?_⟩
  rcases hbind : alookup rid store.bindings with _ | acct0
  · rcases hgf : grandfatherLookup cfg store a with _ | acct1
    · have hh := handle_authn_response_resolver cfg policy store a url rid hreq hrid hbind hgf
      rw [hh] at h ⊢
      rw [resolveAttempts_completed_bindings cfg policy a url rid store
        cfg.map_username_retries 0 acct p u s n h]
      exact alookup_cons_self rid acct store.bindings
    · have hh := handle_authn_response_grandfather cfg policy store a url rid acct1
        hreq hrid hbind hgf
      rw [hh] at h ⊢
      simp only at h ⊢
      injection h with hacct _
      rw [hacct]
      exact alookup_cons_self rid acct store.bindings
  · have hh := handle_authn_response_bound cfg policy store a url rid acct0 hreq hrid hbind
    rw [hh] at h ⊢
    simp only at h ⊢
    injection h with hacct _
    rw [hacct] at hbind
    exact hbind

theorem handle_trace_cases (cfg : SsoConfig) (policy : MappingPolicy)
    (store : Store) (a : Assertion) (url : String) :
    (handle_authn_response cfg policy store a url).extract_trace = []
    ∨ ∃ rid, handle_authn_response cfg policy store a url
        = resolveAttempts cfg policy a url rid store cfg.map_username_retries 0 := by
  by_cases hreq : satisfies a cfg.attribute_requirements = true
  case neg =>
    left
    rw [handle_authn_response_requirements cfg policy store a url
      (Bool.not_eq_true _ |>.mp hreq)]
  rcases hrid : policy.get_remote_user_id a url with _ | rid
  · left
    simp only [handle_authn_response, hreq, hrid, if_true]
  rcases hbind : alookup rid store.bindings with _ | acct0
  · rcases hgf : grandfatherLookup cfg store a with _ | acct1
    · right
      exact ⟨rid, handle_authn_response_resolver cfg policy store a url rid
        hreq hrid hbind hgf⟩
    · left
      rw [handle_authn_response_grandfather cfg policy store a url rid acct1
        hreq hrid hbind hgf]
  · left
    rw [handle_authn_response_bound cfg policy store a url rid acct0 hreq hrid hbind]

/-! ## Claims C1 to C7 -/

/-- C1: local-part resolution over a fixed registered set is deterministic and
monotonic: with the test mapping policy, when exactly the first `N` suffixed
variants of the candidate are registered (`N = 0` meaning the bare candidate is
free) and `N` is below the retry bound, the call completes with
`candidate + suffix N`, the new-account flag true, after exactly the attempts
`0, 1, ..., N` (so an unregistered candidate resolves on the first attempt to
the bare candidate). -/
theorem C1_localpart_resolution (cfg : SsoConfig) (store : Store) (a : Assertion)
    (url username rid : String) (N : Nat)
    (hreq : satisfies a cfg.attribute_requirements = true)
    (hrid : Assertion.get1 a "uid" = some rid)
    (hbind : alookup rid store.bindings = none)
    (hgf : cfg.grandfathered_mxid_source_attribute = none)
    (huser : Assertion.get1 a "username" = some username)
    (hvalid : ∀ k, k ≤ N → localpart_valid (testCandidate username k) = true)
    (hreg : ∀ k, k < N → mk_mxid (testCandidate username k) cfg.server_name ∈ store.registered)
    (hfree : mk_mxid (testCandidate username N) cfg.server_name ∉ store.registered)
    (hN : N < cfg.map_username_retries) :
    (handle_authn_response cfg testPolicy store a url).outcome
        = SsoOutcome.completed (mk_mxid (testCandidate username N) cfg.server_name)
            "saml" url none true
    ∧ (handle_authn_response cfg testPolicy store a url).extract_trace
        = List.range' 0 (N + 1) := by
  have hext : ∀ j, testPolicy.extract a j url
      = Except.ok ⟨some (testCandidate username j), none⟩ := by
    intro j
    simp only [testPolicy, huser]
  have hres := handle_authn_response_resolver cfg testPolicy store a url rid hreq hrid hbind
    (grandfatherLookup_none cfg store a hgf)
  have hsucc := resolveAttempts_success cfg testPolicy a url rid store
    (testCandidate username) hext N cfg.map_username_retries 0 hN
    (fun k hk => by rw [Nat.zero_add]; exact hvalid k hk)
    (fun k hk => by rw [Nat.zero_add]; exact hreg k hk)
    (by rw [Nat.zero_add]; exact hfree)
  rw [hres, hsucc, Nat.zero_add]
  exact ⟨rfl, rfl⟩

/-- Witness for C1: `@test_user:test` already registered, so the candidate
`test_user` resolves to `@test_user1:test` (suffix `N = 1`), new account,
after two attempts. -/
theorem C1_witness :
    (handle_authn_response testCfg testPolicy retriesStore retriesAssertion "").outcome
        = SsoOutcome.completed (mk_mxid (testCandidate "test_user" 1) "test")
            "saml" "" none true
    ∧ (handle_authn_response testCfg testPolicy retriesStore retriesAssertion "").extract_trace
        = List.range' 0 (1 + 1) :=
  C1_localpart_resolution testCfg retriesStore retriesAssertion "" "test_user" "test" 1
    (by decide) (by decide) (by decide) rfl (by decide)
    (fun k hk => by interval_cases k <;> decide)
    (fun k hk => by interval_cases k <;> decide)
    (by decide) (by decide)

/-- C2: when the candidate and every suffixed variant up to the retry bound
are registered, the call terminates with `ExhaustionError` carrying the fixed
message `Unable to generate a Matrix ID from the SSO response` (reported via
the error collaborator, encoded as the `mappingError` outcome), the store is
unchanged and login completion is never invoked. -/
theorem C2_exhaustion (cfg : SsoConfig) (store : Store) (a : Assertion)
    (url username rid : String)
    (hreq : satisfies a cfg.attribute_requirements = true)
    (hrid : Assertion.get1 a "uid" = some rid)
    (hbind : alookup rid store.bindings = none)
    (hgf : cfg.grandfathered_mxid_source_attribute = none)
    (huser : Assertion.get1 a "username" = some username)
    (hvalid : ∀ k, k < cfg.map_username_retries →
        localpart_valid (testCandidate username k) = true)
    (hreg : ∀ k, k < cfg.map_username_retries →
        mk_mxid (testCandidate username k) cfg.server_name ∈ store.registered) :
    (handle_authn_response cfg testPolicy store a url).outcome = ExhaustionError
    ∧ (handle_authn_response cfg testPolicy store a url).outcome
        = SsoOutcome.mappingError "Unable to generate a Matrix ID from the SSO response"
    ∧ (handle_authn_response cfg testPolicy store a url).store = store
    ∧ ∀ acct p u s n, (handle_authn_response cfg testPolicy store a url).outcome
        ≠ SsoOutcome.completed acct p u s n := by
  have hext : ∀ j, testPolicy.extract a j url
      = Except.ok ⟨some (testCandidate username j), none⟩ := by
    intro j
    simp only [testPolicy, huser]
  have hres := handle_authn_response_resolver cfg testPolicy store a url rid hreq hrid hbind
    (grandfatherLookup_none cfg store a hgf)
  have hexh := resolveAttempts_exhaust cfg testPolicy a url rid store
    (testCandidate username) hext cfg.map_username_retries 0
    (fun k hk => by rw [Nat.zero_add]; exact hvalid k hk)
    (fun k hk => by rw [Nat.zero_add]; exact hreg k hk)
  rw [hres, hexh]
  refine ⟨rfl, rfl, rfl, ?_⟩
  intro acct p u s n
  simp [ExhaustionError]

/-- Witness for C2: candidate `tester` with `@tester:test`, `@tester1:test`,
`@tester2:test` all registered and retry bound 3. -/
theorem C2_witness :
    (handle_authn_response testCfg testPolicy exhaustStore exhaustAssertion "").outcome
        = ExhaustionError
    ∧ (handle_authn_response testCfg testPolicy exhaustStore exhaustAssertion "").outcome
        = SsoOutcome.mappingError "Unable to generate a Matrix ID from the SSO response"
    ∧ (handle_authn_response testCfg testPolicy exhaustStore exhaustAssertion "").store
        = exhaustStore
    ∧ ∀ acct p u s n,
        (handle_authn_response testCfg testPolicy exhaustStore exhaustAssertion "").outcome
          ≠ SsoOutcome.completed acct p u s n :=
  C2_exhaustion testCfg exhaustStore exhaustAssertion "" "tester" "tester"
    (by decide) (by decide) (by decide) rfl (by decide)
    (fun k hk => by
      have hk3 : k < 3 := hk
      interval_cases k <;> decide)
    (fun k hk => by
      have hk3 : k < 3 := hk
      interval_cases k <;> decide)

/-- C3: once an assertion-handling call has completed for some account, the
remote user id is bound to that account in the resulting store, and
re-submitting the identical assertion completes again with the very same
account id, the new-account flag false, no extraction (local-part resolution
is skipped entirely) and no further store change. -/
theorem C3_rebind_idempotent (cfg : SsoConfig) (policy : MappingPolicy) (store : Store)
    (a : Assertion) (url acct p u : String) (s : Option String) (n : Bool)
    (h : (handle_authn_response cfg policy store a url).outcome
        = SsoOutcome.completed acct p u s n) :
    (handle_authn_response cfg policy
        (handle_authn_response cfg policy store a url).store a url).outcome
      = SsoOutcome.completed acct "saml" url none false
    ∧ (handle_authn_response cfg policy
        (handle_authn_response cfg policy store a url).store a url).extract_trace = []
    ∧ (handle_authn_response cfg policy
        (handle_authn_response cfg policy store a url).store a url).store
      = (handle_authn_response cfg policy store a url).store := by
  obtain ⟨hreq, rid, hrid, hlook⟩ :=
    handle_completed_binding cfg policy store a url acct p u s n h
  have hh := handle_authn_response_bound cfg policy
    (handle_authn_response cfg policy store a url).store a url rid acct hreq hrid hlook
  rw [hh]
  exact ⟨rfl, rfl, rfl⟩

/-- Witness for C3: the grandfathering scenario binds `tester` to
`@test_user:test` on the first call; the identical re-submitted assertion
resolves to the same account as an existing user. -/
theorem C3_witness :
    (handle_authn_response grandfatherCfg testPolicy
        (handle_authn_response grandfatherCfg testPolicy retriesStore
          grandfatherAssertion "").store grandfatherAssertion "").outcome
      = SsoOutcome.completed "@test_user:test" "saml" "" none false
    ∧ (handle_authn_response grandfatherCfg testPolicy
        (handle_authn_response grandfatherCfg testPolicy retriesStore
          grandfatherAssertion "").store grandfatherAssertion "").extract_trace = []
    ∧ (handle_authn_response grandfatherCfg testPolicy
        (handle_authn_response grandfatherCfg testPolicy retriesStore
          grandfatherAssertion "").store grandfatherAssertion "").store
      = (handle_authn_response grandfatherCfg testPolicy retriesStore
          grandfatherAssertion "").store :=
  C3_rebind_idempotent grandfatherCfg testPolicy retriesStore grandfatherAssertion ""
    "@test_user:test" "saml" "" none false (by decide)

/-- C4: the requirements check passes iff every configured pair is exposed by
the assertion (logical AND, no partial credit), and when it fails the call
terminates silently: outcome `rejectedRequirements`, store untouched, no
extraction, no completion call and no surfaced error. -/
theorem C4_attribute_requirements_gate (cfg : SsoConfig) (policy : MappingPolicy)
    (store : Store) (a : Assertion) (url : String) :
    (satisfies a cfg.attribute_requirements = true
        ↔ ∀ r ∈ cfg.attribute_requirements, r.value ∈ a.get r.attr)
    ∧ (satisfies a cfg.attribute_requirements = false →
        (handle_authn_response cfg policy store a url).outcome
            = SsoOutcome.rejectedRequirements
        ∧ (handle_authn_response cfg policy store a url).store = store
        ∧ (handle_authn_response cfg policy store a url).extract_trace = []
        ∧ (∀ acct p u s n, (handle_authn_response cfg policy store a url).outcome
            ≠ SsoOutcome.completed acct p u s n)
        ∧ (∀ m, (handle_authn_response cfg policy store a url).outcome
            ≠ SsoOutcome.mappingError m)) := by
  refine ⟨satisfies_iff a cfg.attribute_requirements, ?_⟩
  intro hfail
  rw [handle_authn_response_requirements cfg policy store a url hfail]
  exact ⟨rfl, rfl, rfl, fun acct p u s n => by simp, fun m => by simp⟩

/-- Witness for C4: the requirements configuration of the tests with an
assertion that has neither required attribute. -/
theorem C4_witness :
    (satisfies requirementsAssertion requirementsCfg.attribute_requirements = true
        ↔ ∀ r ∈ requirementsCfg.attribute_requirements,
            r.value ∈ requirementsAssertion.get r.attr)
    ∧ ((handle_authn_response requirementsCfg testPolicy emptyStore requirementsAssertion
          "redirect_uri").outcome = SsoOutcome.rejectedRequirements
        ∧ (handle_authn_response requirementsCfg testPolicy emptyStore requirementsAssertion
            "redirect_uri").store = emptyStore
        ∧ (handle_authn_response requirementsCfg testPolicy emptyStore requirementsAssertion
            "redirect_uri").extract_trace = []
        ∧ (∀ acct p u s n,
            (handle_authn_response requirementsCfg testPolicy emptyStore requirementsAssertion
              "redirect_uri").outcome ≠ SsoOutcome.completed acct p u s n)
        ∧ (∀ m,
            (handle_authn_response requirementsCfg testPolicy emptyStore requirementsAssertion
              "redirect_uri").outcome ≠ SsoOutcome.mappingError m)) :=
  ⟨(C4_attribute_requirements_gate requirementsCfg testPolicy emptyStore
      requirementsAssertion "redirect_uri").1,
   (C4_attribute_requirements_gate requirementsCfg testPolicy emptyStore
      requirementsAssertion "redirect_uri").2 (by decide)⟩

/-- C5: an invalid candidate local-part fails the call immediately with
`ValidationError` whose message names the offending local-part; exactly one
extraction happens (failure count 0, so no retry attempt is consumed and the
collision-retry path is never taken), the store is unchanged and completion is
never invoked. -/
theorem C5_invalid_localpart (cfg : SsoConfig) (policy : MappingPolicy) (store : Store)
    (a : Assertion) (url rid lp : String) (d : Option String)
    (hreq : satisfies a cfg.attribute_requirements = true)
    (hrid : policy.get_remote_user_id a url = some rid)
    (hbind : alookup rid store.bindings = none)
    (hgf : cfg.grandfathered_mxid_source_attribute = none)
    (hr : 0 < cfg.map_username_retries)
    (hext : policy.extract a 0 url = Except.ok ⟨some lp, d⟩)
    (hinvalid : localpart_valid lp = false) :
    (handle_authn_response cfg policy store a url).outcome = ValidationError lp
    ∧ (handle_authn_response cfg policy store a url).outcome
        = SsoOutcome.mappingError ("localpart is invalid: " ++ lp)
    ∧ (handle_authn_response cfg policy store a url).extract_trace = [0]
    ∧ (handle_authn_response cfg policy store a url).store = store
    ∧ ∀ acct p u s n, (handle_authn_response cfg policy store a url).outcome
        ≠ SsoOutcome.completed acct p u s n := by
  have hres := handle_authn_response_resolver cfg policy store a url rid hreq hrid hbind
    (grandfatherLookup_none cfg store a hgf)
  obtain ⟨r2, hrr⟩ : ∃ r2, cfg.map_username_retries = r2 + 1 :=
    ⟨cfg.map_username_retries - 1, by omega⟩
  rw [hres, hrr, resolveAttempts_succ_ok cfg policy a url rid store r2 0 lp d hext,
    if_neg (by simp [hinvalid])]
  refine ⟨rfl, rfl, rfl, rfl, ?_⟩
  intro acct p u s n
  simp [ValidationError]

/-- Witness for C5: the candidate `föö` is rejected with
`localpart is invalid: föö` after a single extraction. -/
theorem C5_witness :
    (handle_authn_response testCfg testPolicy emptyStore invalidAssertion "").outcome
        = ValidationError "föö"
    ∧ (handle_authn_response testCfg testPolicy emptyStore invalidAssertion "").outcome
        = SsoOutcome.mappingError ("localpart is invalid: " ++ "föö")
    ∧ (handle_authn_response testCfg testPolicy emptyStore invalidAssertion "").extract_trace
        = [0]
    ∧ (handle_authn_response testCfg testPolicy emptyStore invalidAssertion "").store
        = emptyStore
    ∧ ∀ acct p u s n,
        (handle_authn_response testCfg testPolicy emptyStore invalidAssertion "").outcome
          ≠ SsoOutcome.completed acct p u s n :=
  C5_invalid_localpart testCfg testPolicy emptyStore invalidAssertion "" "test" "föö" none
    (by decide) (by decide) (by decide) rfl (by decide) rfl (by decide)

/-- C6: a mapping policy that raises a redirect signal during extraction makes
the call terminate as `redirected` with the target URL unchanged; the store is
untouched and neither the completion collaborator nor the error collaborator
is invoked. -/
theorem C6_redirect_propagation (cfg : SsoConfig) (policy : MappingPolicy) (store : Store)
    (a : Assertion) (url rid loc : String)
    (hreq : satisfies a cfg.attribute_requirements = true)
    (hrid : policy.get_remote_user_id a url = some rid)
    (hbind : alookup rid store.bindings = none)
    (hgf : cfg.grandfathered_mxid_source_attribute = none)
    (hr : 0 < cfg.map_username_retries)
    (hext : policy.extract a 0 url = Except.error ⟨loc⟩) :
    (handle_authn_response cfg policy store a url).outcome = SsoOutcome.redirected loc
    ∧ (handle_authn_response cfg policy store a url).store = store
    ∧ (∀ acct p u s n, (handle_authn_response cfg policy store a url).outcome
        ≠ SsoOutcome.completed acct p u s n)
    ∧ (∀ m, (handle_authn_response cfg policy store a url).outcome
        ≠ SsoOutcome.mappingError m) := by
  have hres := handle_authn_response_resolver cfg policy store a url rid hreq hrid hbind
    (grandfatherLookup_none cfg store a hgf)
  obtain ⟨r2, hrr⟩ : ∃ r2, cfg.map_username_retries = r2 + 1 :=
    ⟨cfg.map_username_retries - 1, by omega⟩
  rw [hres, hrr, resolveAttempts_succ_redirect cfg policy a url rid store r2 0 ⟨loc⟩ hext]
  exact ⟨rfl, rfl, fun acct p u s n => by simp, fun m => by simp⟩

/-- Witness for C6: the redirect test policy raises
`https://custom-saml-redirect/`, which propagates unchanged. -/
theorem C6_witness :
    (handle_authn_response testCfg testRedirectPolicy emptyStore retriesAssertion "").outcome
        = SsoOutcome.redirected "https://custom-saml-redirect/"
    ∧ (handle_authn_response testCfg testRedirectPolicy emptyStore retriesAssertion "").store
        = emptyStore
    ∧ (∀ acct p u s n,
        (handle_authn_response testCfg testRedirectPolicy emptyStore retriesAssertion "").outcome
          ≠ SsoOutcome.completed acct p u s n)
    ∧ (∀ m,
        (handle_authn_response testCfg testRedirectPolicy emptyStore retriesAssertion "").outcome
          ≠ SsoOutcome.mappingError m) :=
  C6_redirect_propagation testCfg testRedirectPolicy emptyStore retriesAssertion "" "test"
    "https://custom-saml-redirect/" (by decide) (by decide) (by decide) rfl (by decide) rfl

/-- C7 counterexample: in the retries scenario (candidate `test_user` with
`@test_user:test` registered) the mapping policy extraction step is invoked
twice in one call, with failure counts 0 and 1, and the retry candidate
`test_user1` comes from the second policy invocation; so the extraction step
IS re-invoked to produce the retry candidate, refuting the claim that the
resolver itself appends the suffix with extraction invoked at most once per
call. -/
theorem C7_counterexample :
    (handle_authn_response testCfg testPolicy retriesStore retriesAssertion
        "").extract_trace = [0, 1]
    ∧ ¬((handle_authn_response testCfg testPolicy retriesStore retriesAssertion
        "").extract_trace.length ≤ 1)
    ∧ (handle_authn_response testCfg testPolicy retriesStore retriesAssertion "").outcome
        = SsoOutcome.completed "@test_user1:test" "saml" "" none true :=
  ⟨by decide, by decide, by decide⟩

/-- C7 (amended): within one assertion-handling call the extraction step is
invoked exactly once per resolver attempt, with the monotonically increasing
failure counts 0, 1, 2, ... (the trace is the initial range of its length),
bounded by the retry maximum; and it is the test mapping policy, not the
resolver, that appends the integer suffix to the literal candidate
(`username + str(failures)`). -/
theorem C7_extraction_per_attempt (cfg : SsoConfig) (policy : MappingPolicy)
    (store : Store) (a : Assertion) (url : String) :
    ((handle_authn_response cfg policy store a url).extract_trace
        = List.range' 0 (handle_authn_response cfg policy store a url).extract_trace.length)
    ∧ (handle_authn_response cfg policy store a url).extract_trace.length
        ≤ cfg.map_username_retries
    ∧ ∀ u j, Assertion.get1 a "username" = some u →
        testPolicy.extract a j url = Except.ok ⟨some (testCandidate u j), none⟩ := by
  refine ⟨?_, ?_, ?_⟩
  · rcases handle_trace_cases cfg policy store a url with h | ⟨rid, h⟩
    · rw [h]
      rfl
    · rw [h]
      exact resolveAttempts_trace cfg policy a url rid store cfg.map_username_retries 0
  · rcases handle_trace_cases cfg policy store a url with h | ⟨rid, h⟩
    · rw [h]
      exact Nat.zero_le _
    · rw [h]
      exact resolveAttempts_trace_length cfg policy a url rid store cfg.map_username_retries 0
  · intro u j hu
    simp only [testPolicy, hu]

/-- Witness for C7 (amended), at the retries scenario: the trace is an initial
run of failure counts, and the policy applied at failure count 1 returns the
suffixed candidate itself. -/
theorem C7_extraction_per_attempt_witness :
    ((handle_authn_response testCfg testPolicy retriesStore retriesAssertion "").extract_trace
        = List.range' 0 (handle_authn_response testCfg testPolicy retriesStore
            retriesAssertion "").extract_trace.length)
    ∧ testPolicy.extract retriesAssertion 1 ""
        = Except.ok ⟨some (testCandidate "test_user" 1), none⟩ :=
  ⟨(C7_extraction_per_attempt testCfg testPolicy retriesStore retriesAssertion "").1,
   (C7_extraction_per_attempt testCfg testPolicy retriesStore retriesAssertion "").2.2
     "test_user" 1 rfl⟩

end Synapse
